import Mathlib

/-!
Verification of the Zoom webhook core of the learningApp backend.

The repository contains two near-identical webhook implementations:
`src/backend/src/routers/zoom_webhook.py` (registered by `src/backend/src/main.py`,
embedded below in namespace `Backend`) and `src/backend_flask/zoom_webhook.py`
(embedded in namespace `FlaskVariant`).  Both are FastAPI routers; the handlers
are embedded as pure functions over a parsed-JSON data model, an explicit
participant store (list of documents), an explicit clock (`now : Nat` standing
for `datetime.utcnow()`), and an explicit environment
(`env : Option String` standing for `os.getenv("ZOOM_WEBHOOK_SECRET", "")`).

Crypto primitives used by the code (`hashlib.sha256`, `hmac`, `base64.b64encode`,
hex digests) are embedded executably over byte lists (`List Nat`, each < 256).
-/

set_option maxRecDepth 10000

/-! ## 32-bit word helpers (bytes and words are `Nat`, reduced mod 2^32). -/

def mask32 : Nat := 4294967295

def add32 (a b : Nat) : Nat := (a + b) % 4294967296

def rotr32 (n x : Nat) : Nat := ((x >>> n) ||| (x <<< (32 - n))) &&& mask32

def shr32 (n x : Nat) : Nat := x >>> n

/-! ## SHA-256 (FIPS 180-4), executable over byte lists. -/

/-- The 64 SHA-256 round constants, in decimal. -/
def sha256K : List Nat :=
  [1116352408, 1899447441, 3049323471, 3921009573, 961987163, 1508970993,
   2453635748, 2870763221, 3624381080, 310598401, 607225278, 1426881987,
   1925078388, 2162078206, 2614888103, 3248222580, 3835390401, 4022224774,
   264347078, 604807628, 770255983, 1249150122, 1555081692, 1996064986,
   2554220882, 2821834349, 2952996808, 3210313671, 3336571891, 3584528711,
   113926993, 338241895, 666307205, 773529912, 1294757372, 1396182291,
   1695183700, 1986661051, 2177026350, 2456956037, 2730485921, 2820302411,
   3259730800, 3345764771, 3516065817, 3600352804, 4094571909, 275423344,
   430227734, 506948616, 659060556, 883997877, 958139571, 1322822218,
   1537002063, 1747873779, 1955562222, 2024104815, 2227730452, 2361852424,
   2428436474, 2756734187, 3204031479, 3329325298]

/-- The eight SHA-256 initial hash values, in decimal. -/
def sha256H0 : List Nat :=
  [1779033703, 3144134277, 1013904242, 2773480762, 1359893119, 2600822924,
   528734635, 1541459225]

/-- Big-endian bytes of a `Nat` in `len` bytes. -/
def beBytes (len n : Nat) : List Nat :=
  match len with
  | 0 => []
  | l + 1 => beBytes l (n >>> 8) ++ [n &&& 255]

/-- SHA-256 message padding: append 0x80, zero bytes, and the 64-bit big-endian
bit length, reaching a multiple of 64 bytes. -/
def sha256Pad (msg : List Nat) : List Nat :=
  let len := msg.length
  let zeros := (55 + 64 - len % 64) % 64
  msg ++ [0x80] ++ List.replicate zeros 0 ++ beBytes 8 (len * 8)

/-- Split a list into chunks of `n` (positive) elements. -/
def chunks (n : Nat) (l : List Nat) (fuel : Nat) : List (List Nat) :=
  match fuel with
  | 0 => []
  | f + 1 =>
    if l.isEmpty then []
    else l.take n :: chunks n (l.drop n) f

/-- Combine 4 big-endian bytes into 32-bit words. -/
def bytesToWords : List Nat → List Nat
  | b0 :: b1 :: b2 :: b3 :: rest =>
      ((b0 <<< 24) ||| (b1 <<< 16) ||| (b2 <<< 8) ||| b3) :: bytesToWords rest
  | _ => []

def smallSigma0 (x : Nat) : Nat := (rotr32 7 x) ^^^ (rotr32 18 x) ^^^ (shr32 3 x)
def smallSigma1 (x : Nat) : Nat := (rotr32 17 x) ^^^ (rotr32 19 x) ^^^ (shr32 10 x)
def bigSigma0 (x : Nat) : Nat := (rotr32 2 x) ^^^ (rotr32 13 x) ^^^ (rotr32 22 x)
def bigSigma1 (x : Nat) : Nat := (rotr32 6 x) ^^^ (rotr32 11 x) ^^^ (rotr32 25 x)

/-- Extend the 16 message words to 64; `acc` holds the words produced so far in
reverse order. -/
def sha256Extend (steps : Nat) (acc : List Nat) : List Nat :=
  match steps with
  | 0 => acc.reverse
  | s + 1 =>
    let w15 := acc.getD 14 0
    let w2 := acc.getD 1 0
    let w16 := acc.getD 15 0
    let w7 := acc.getD 6 0
    let w := add32 (add32 (smallSigma1 w2) w7) (add32 (smallSigma0 w15) w16)
    sha256Extend s (w :: acc)

structure Sha256State where
  a : Nat
  b : Nat
  c : Nat
  d : Nat
  e : Nat
  f : Nat
  g : Nat
  h : Nat

def sha256Round (st : Sha256State) (kw : Nat × Nat) : Sha256State :=
  let t1 := add32 (add32 (add32 st.h (bigSigma1 st.e)) (add32 ((st.e &&& st.f) ^^^ ((st.e ^^^ mask32) &&& st.g)) kw.1)) kw.2
  let t2 := add32 (bigSigma0 st.a) ((st.a &&& st.b) ^^^ (st.a &&& st.c) ^^^ (st.b &&& st.c))
  ⟨add32 t1 t2, st.a, st.b, st.c, add32 st.d t1, st.e, st.f, st.g⟩

def sha256Compress (hs : List Nat) (block : List Nat) : List Nat :=
  let ws := sha256Extend 48 (bytesToWords block).reverse
  let init : Sha256State :=
    ⟨hs.getD 0 0, hs.getD 1 0, hs.getD 2 0, hs.getD 3 0,
     hs.getD 4 0, hs.getD 5 0, hs.getD 6 0, hs.getD 7 0⟩
  let fin := (sha256K.zip ws).foldl sha256Round init
  [add32 (hs.getD 0 0) fin.a, add32 (hs.getD 1 0) fin.b,
   add32 (hs.getD 2 0) fin.c, add32 (hs.getD 3 0) fin.d,
   add32 (hs.getD 4 0) fin.e, add32 (hs.getD 5 0) fin.f,
   add32 (hs.getD 6 0) fin.g, add32 (hs.getD 7 0) fin.h]

/-- SHA-256 digest (32 bytes) of a byte list. -/
def sha256 (msg : List Nat) : List Nat :=
  let padded := sha256Pad msg
  let bs := chunks 64 padded (padded.length + 1)
  let hs := bs.foldl sha256Compress sha256H0
  hs.foldr (fun w acc => beBytes 4 w ++ acc) []

/-! ## HMAC-SHA256, hex digest, base64 (`hmac`, `hashlib`, `base64` stdlib). -/

/-- HMAC-SHA256 over byte lists; block size 64. Keys longer than the block are
first hashed; shorter keys are zero-padded to the block size. -/
def hmacSha256 (key msg : List Nat) : List Nat :=
  let k0 := if key.length > 64 then sha256 key else key
  let kp := k0 ++ List.replicate (64 - k0.length) 0
  let ipad := kp.map (fun b => b ^^^ 0x36)
  let opad := kp.map (fun b => b ^^^ 0x5c)
  sha256 (opad ++ sha256 (ipad ++ msg))

def hexChar (n : Nat) : Char :=
  if n < 10 then Char.ofNat (48 + n) else Char.ofNat (87 + n)

/-- Lowercase hex string of a byte list (Python `hexdigest()`). -/
def hexDigest (bs : List Nat) : String :=
  String.mk (bs.foldr (fun b acc => hexChar (b >>> 4) :: hexChar (b &&& 15) :: acc) [])

def base64Char (n : Nat) : Char :=
  if n < 26 then Char.ofNat (65 + n)
  else if n < 52 then Char.ofNat (97 + n - 26)
  else if n < 62 then Char.ofNat (48 + n - 52)
  else if n = 62 then Char.ofNat 43
  else Char.ofNat 47

/-- Standard base64 encoding with padding (Python `base64.b64encode`). -/
def base64Encode : List Nat → List Char
  | b0 :: b1 :: b2 :: rest =>
      let n := (b0 <<< 16) ||| (b1 <<< 8) ||| b2
      base64Char (n >>> 18) :: base64Char ((n >>> 12) &&& 63) ::
        base64Char ((n >>> 6) &&& 63) :: base64Char (n &&& 63) :: base64Encode rest
  | [b0, b1] =>
      let n := (b0 <<< 16) ||| (b1 <<< 8)
      [base64Char (n >>> 18), base64Char ((n >>> 12) &&& 63),
       base64Char ((n >>> 6) &&& 63), Char.ofNat 61]
  | [b0] =>
      let n := b0 <<< 16
      [base64Char (n >>> 18), base64Char ((n >>> 12) &&& 63), Char.ofNat 61, Char.ofNat 61]
  | [] => []

def base64Str (bs : List Nat) : String := String.mk (base64Encode bs)

/-! ## UTF-8 encoding of strings to byte lists (Python `str.encode("utf-8")`). -/

def utf8Bytes (c : Char) : List Nat :=
  let n := c.toNat
  if n < 0x80 then [n]
  else if n < 0x800 then [0xc0 ||| (n >>> 6), 0x80 ||| (n &&& 0x3f)]
  else if n < 0x10000 then
    [0xe0 ||| (n >>> 12), 0x80 ||| ((n >>> 6) &&& 0x3f), 0x80 ||| (n &&& 0x3f)]
  else
    [0xf0 ||| (n >>> 18), 0x80 ||| ((n >>> 12) &&& 0x3f),
     0x80 ||| ((n >>> 6) &&& 0x3f), 0x80 ||| (n &&& 0x3f)]

def strBytes (s : String) : List Nat := (s.data.map utf8Bytes).flatten

/-! ## JSON values (result of Python `json.loads`). -/

inductive Json where
  | null : Json
  | bool : Bool → Json
  | num : Int → Json
  | str : String → Json
  | arr : List Json → Json
  | obj : List (String × Json) → Json

mutual
def Json.beq : Json → Json → Bool
  | .null, .null => true
  | .bool a, .bool b => a == b
  | .num a, .num b => a == b
  | .str a, .str b => a == b
  | .arr a, .arr b => Json.beqList a b
  | .obj a, .obj b => Json.beqObj a b
  | _, _ => false
def Json.beqList : List Json → List Json → Bool
  | [], [] => true
  | x :: xs, y :: ys => Json.beq x y && Json.beqList xs ys
  | _, _ => false
def Json.beqObj : List (String × Json) → List (String × Json) → Bool
  | [], [] => true
  | (k1, v1) :: xs, (k2, v2) :: ys => k1 == k2 && Json.beq v1 v2 && Json.beqObj xs ys
  | _, _ => false
end

/-- Lookup in an object's key/value list; the LAST occurrence of a key wins,
matching the overwrite behaviour of the Python dict `json.loads` builds. -/
def jsonLookup (kvs : List (String × Json)) (k : String) : Option Json :=
  match kvs with
  | [] => none
  | (k1, v1) :: rest =>
    match jsonLookup rest k with
    | some v => some v
    | none => if k1 == k then some v1 else none

/-! ## A JSON parser over characters (Python `json.loads`), fuelled so that all
recursion is structural and kernel-reducible. -/

def isJsonWs (c : Char) : Bool := c = ' ' || c = '\t' || c = '\n' || c = '\r'

def skipWs : List Char → List Char
  | c :: cs => if isJsonWs c then skipWs cs else c :: cs
  | [] => []

def parseStringAux (acc : List Char) : List Char → Except String (String × List Char)
  | c :: d :: ds =>
    if c = '"' then .ok (String.mk acc.reverse, d :: ds)
    else if c = '\\' then
      if d = '"' || d = '\\' || d = '/' then parseStringAux (d :: acc) ds
      else if d = 'n' then parseStringAux ('\n' :: acc) ds
      else if d = 't' then parseStringAux ('\t' :: acc) ds
      else if d = 'r' then parseStringAux ('\r' :: acc) ds
      else .error "Invalid escape"
    else parseStringAux (c :: acc) (d :: ds)
  | [c] =>
    if c = '"' then .ok (String.mk acc.reverse, [])
    else .error "Unterminated string"
  | [] => .error "Unterminated string"

def parseDigits (acc : Nat) (count : Nat) : List Char → Nat × Nat × List Char
  | c :: cs =>
    if c.isDigit then parseDigits (acc * 10 + (c.toNat - 48)) (count + 1) cs
    else (acc, count, c :: cs)
  | [] => (acc, count, [])

def parseNumber (cs : List Char) : Except String (Json × List Char) :=
  match cs with
  | c :: rest =>
    if c = '-' then
      match parseDigits 0 0 rest with
      | (_, 0, _) => .error "Expecting value"
      | (n, _ + 1, r) => .ok (.num (-(n : Int)), r)
    else
      match parseDigits 0 0 (c :: rest) with
      | (_, 0, _) => .error "Expecting value"
      | (n, _ + 1, r) => .ok (.num (n : Int), r)
  | [] => .error "Expecting value"

def lbrace : Char := Char.ofNat 123
def rbrace : Char := Char.ofNat 125

mutual
def parseValue : Nat → List Char → Except String (Json × List Char)
  | 0, _ => .error "Nesting too deep"
  | f + 1, cs =>
    match skipWs cs with
    | 't' :: 'r' :: 'u' :: 'e' :: rest => .ok (.bool true, rest)
    | 'f' :: 'a' :: 'l' :: 's' :: 'e' :: rest => .ok (.bool false, rest)
    | 'n' :: 'u' :: 'l' :: 'l' :: rest => .ok (.null, rest)
    | '"' :: rest =>
      match parseStringAux [] rest with
      | .ok (s, r) => .ok (.str s, r)
      | .error e => .error e
    | '[' :: rest =>
      (match skipWs rest with
       | ']' :: r => .ok (.arr [], r)
       | other => parseElems f other [])
    | c :: rest =>
      if c = lbrace then
        match skipWs rest with
        | d :: r =>
          if d = rbrace then .ok (.obj [], r)
          else parseMembers f (d :: r) []
        | [] => .error "Expecting property name"
      else parseNumber (c :: rest)
    | [] => .error "Expecting value"
def parseElems : Nat → List Char → List Json → Except String (Json × List Char)
  | 0, _, _ => .error "Nesting too deep"
  | f + 1, cs, acc =>
    match parseValue f cs with
    | .error e => .error e
    | .ok (v, rest) =>
      match skipWs rest with
      | ',' :: r => parseElems f r (v :: acc)
      | ']' :: r => .ok (.arr (v :: acc).reverse, r)
      | _ => .error "Expecting comma or end of array"
def parseMembers : Nat → List Char → List (String × Json) → Except String (Json × List Char)
  | 0, _, _ => .error "Nesting too deep"
  | f + 1, cs, acc =>
    match skipWs cs with
    | '"' :: rest =>
      (match parseStringAux [] rest with
       | .error e => .error e
       | .ok (k, r1) =>
         match skipWs r1 with
         | ':' :: r2 =>
           (match parseValue f r2 with
            | .error e => .error e
            | .ok (v, r3) =>
              match skipWs r3 with
              | ',' :: r4 => parseMembers f r4 ((k, v) :: acc)
              | d :: r4 =>
                if d = rbrace then .ok (.obj ((k, v) :: acc).reverse, r4)
                else .error "Expecting comma or end of object"
              | [] => .error "Expecting comma or end of object")
         | _ => .error "Expecting colon")
    | _ => .error "Expecting property name"
end

/-- Python `json.loads` on a string: parse one JSON value, demand only
whitespace after it. -/
def json_loads (s : String) : Except String Json :=
  match parseValue (2 * s.data.length + 4) s.data with
  | .ok (j, rest) => if (skipWs rest).isEmpty then .ok j else .error "Extra data"
  | .error e => .error e

/-! ## Python dict / object semantics used by the handlers. -/

/-- Python truthiness for JSON-shaped values. -/
def pyTruthy : Json → Bool
  | .null => false
  | .bool b => b
  | .num n => n != 0
  | .str s => s != ""
  | .arr xs => !xs.isEmpty
  | .obj kvs => !kvs.isEmpty

/-- Python `a or b`. -/
def pyOr (a b : Json) : Json := if pyTruthy a then a else b

/-- Python `d.get(k, dflt)`: `AttributeError` when the receiver is not a dict. -/
def dictGet (j : Json) (k : String) (dflt : Json) : Except String Json :=
  match j with
  | .obj kvs => .ok ((jsonLookup kvs k).getD dflt)
  | _ => .error "AttributeError: no attribute get"

/-- Python `d[k]`: `KeyError` when absent, `TypeError` when not a dict. -/
def pyIndex (j : Json) (k : String) : Except String Json :=
  match j with
  | .obj kvs =>
    (match jsonLookup kvs k with
     | some v => .ok v
     | none => .error ("KeyError: " ++ k))
  | _ => .error "TypeError: value is not subscriptable"

/-- Python `s.encode("utf-8")` receiver check: only `str` has `encode`. -/
def asStr (j : Json) : Except String String :=
  match j with
  | .str s => .ok s
  | _ => .error "AttributeError: no attribute encode"

mutual
/-- Python `str()` of a JSON-shaped value (container rendering approximates
CPython's `repr`; the attendance claims only ever apply it to scalars). -/
def pyStr : Json → String
  | .null => "None"
  | .bool true => "True"
  | .bool false => "False"
  | .num n => toString n
  | .str s => s
  | .arr xs => "[" ++ pyReprList xs ++ "]"
  | .obj kvs => "\x7b" ++ pyReprObj kvs ++ "\x7d"
def pyRepr : Json → String
  | .null => "None"
  | .bool true => "True"
  | .bool false => "False"
  | .num n => toString n
  | .str s => "\x27" ++ s ++ "\x27"
  | .arr xs => "[" ++ pyReprList xs ++ "]"
  | .obj kvs => "\x7b" ++ pyReprObj kvs ++ "\x7d"
def pyReprList : List Json → String
  | [] => ""
  | [x] => pyRepr x
  | x :: y :: rest => pyRepr x ++ ", " ++ pyReprList (y :: rest)
def pyReprObj : List (String × Json) → String
  | [] => ""
  | [(k, v)] => "\x27" ++ k ++ "\x27: " ++ pyRepr v
  | (k, v) :: y :: rest => "\x27" ++ k ++ "\x27: " ++ pyRepr v ++ ", " ++ pyReprObj (y :: rest)
end

/-- Python `j == s` for a JSON value against a string literal. -/
def jsonEqStr (j : Json) (s : String) : Bool :=
  match j with
  | .str t => t == s
  | _ => false

/-- An HTTP response: status code and JSON body. -/
structure Resp where
  status : Nat
  body : Json

namespace Backend

/-!
Embedding of `src/backend/src/routers/zoom_webhook.py`, the router registered
by `src/backend/src/main.py`.  The participant store `db.participants` is a
list of documents; `insert_one` appends, `update_one` updates the first
matching document.
-/

/-- A document of the `participants` collection as this router writes it.
`none` in an `Option` field means the field is absent from the document. -/
structure BDoc where
  zoom_meeting_id : String
  user_id : String
  name : Option Json := none
  email : Option Json := none
  join_time : Option Nat := none
  left_time : Option Nat := none
  status : String := ""
  raw : Option Json := none

def successJoined : Json := Json.obj [("status", Json.str "success"), ("event", Json.str "joined")]

def successLeft : Json := Json.obj [("status", Json.str "success"), ("event", Json.str "left")]

/-- Field extraction of `handle_participant_joined`: `obj = data["payload"]["object"]`,
`participant = obj.get("participant", {})`, then the `or`-fallback id/name/email
reads, each a point where Python may raise. Returns
`(meeting_id, user_id, name, email, participant)`. -/
def joined_fields (data : Json) : Except String (Json × Json × Json × Json × Json) := do
  let payload ← pyIndex data "payload"
  let obj ← pyIndex payload "object"
  let participant ← dictGet obj "participant" (Json.obj [])
  let meeting_id ← dictGet obj "id" Json.null
  let uid1 ← dictGet participant "user_id" Json.null
  let uid2 ← dictGet participant "id" Json.null
  let name1 ← dictGet participant "user_name" Json.null
  let name2 ← dictGet participant "name" Json.null
  let email ← dictGet participant "email" Json.null
  return (meeting_id, pyOr uid1 uid2, pyOr name1 name2, email, participant)

/-- `handle_participant_joined`: extract fields, then `insert_one` a new
document with `status="joined"` and `join_time=now`. An exception leaves the
store untouched (all raising reads precede the insert in the source). -/
def handle_participant_joined (now : Nat) (data : Json) (db : List BDoc) :
    Except String Json × List BDoc :=
  match joined_fields data with
  | .error e => (.error e, db)
  | .ok (meeting_id, user_id, name, email, participant) =>
    (.ok successJoined,
     db ++ [{ zoom_meeting_id := pyStr meeting_id, user_id := pyStr user_id,
              name := some name, email := some email, join_time := some now,
              status := "joined", raw := some participant }])

/-- Field extraction of `handle_participant_left`, returning the stringified
`(meeting_id, user_id)` used in the update filter. -/
def left_fields (data : Json) : Except String (String × String) := do
  let payload ← pyIndex data "payload"
  let obj ← pyIndex payload "object"
  let participant ← dictGet obj "participant" (Json.obj [])
  let meeting_id ← dictGet obj "id" Json.null
  let uid1 ← dictGet participant "user_id" Json.null
  let uid2 ← dictGet participant "id" Json.null
  return (pyStr meeting_id, pyStr (pyOr uid1 uid2))

/-- `db.participants.update_one({zoom_meeting_id, user_id}, {$set: {left_time,
status:"left"}}, upsert=True)`: update the first matching document; when none
matches, insert a document holding only the filter and `$set` fields. -/
def update_left (m u : String) (now : Nat) : List BDoc → List BDoc
  | [] => [{ zoom_meeting_id := m, user_id := u, left_time := some now, status := "left" }]
  | d :: ds =>
    if d.zoom_meeting_id == m && d.user_id == u then
      { d with left_time := some now, status := "left" } :: ds
    else d :: update_left m u now ds

/-- `handle_participant_left`: extract the pair, then upsert. -/
def handle_participant_left (now : Nat) (data : Json) (db : List BDoc) :
    Except String Json × List BDoc :=
  match left_fields data with
  | .error e => (.error e, db)
  | .ok (m, u) => (.ok successLeft, update_left m u now db)

/-- The `endpoint.url_validation` branch inlined in this router's
`zoom_webhook`: hash `plainToken` with the secret (defaulted to `""` when the
environment variable is absent — the source has no missing-secret check) and
answer `{plainToken, encryptedToken}`. -/
def url_validation (env : Option String) (data : Json) : Except String Json := do
  let payload ← pyIndex data "payload"
  let plain ← pyIndex payload "plainToken"
  let secret := env.getD ""
  let t ← asStr plain
  return Json.obj [("plainToken", plain),
    ("encryptedToken", Json.str (base64Str (hmacSha256 (strBytes secret) (strBytes t))))]

/-- The `POST /api/zoom/webhook` route handler: parse the body, read `event`
with default `""`, dispatch.  `Except.error` is an exception escaping the
route (this router has no try/except); the store component records the writes
performed before the exception. -/
def zoom_webhook (env : Option String) (now : Nat) (body : String) (db : List BDoc) :
    Except String Resp × List BDoc :=
  match json_loads body with
  | .error e => (.error e, db)
  | .ok data =>
    match dictGet data "event" (Json.str "") with
    | .error e => (.error e, db)
    | .ok event =>
      if jsonEqStr event "endpoint.url_validation" then
        (match url_validation env data with
         | .error e => (.error e, db)
         | .ok j => (.ok ⟨200, j⟩, db))
      else if jsonEqStr event "meeting.participant_joined" ||
              jsonEqStr event "participant.joined" then
        (match handle_participant_joined now data db with
         | (.ok j, db1) => (.ok ⟨200, j⟩, db1)
         | (.error e, db1) => (.error e, db1))
      else if jsonEqStr event "meeting.participant_left" ||
              jsonEqStr event "participant.left" then
        (match handle_participant_left now data db with
         | (.ok j, db1) => (.ok ⟨200, j⟩, db1)
         | (.error e, db1) => (.error e, db1))
      else (.ok ⟨200, Json.obj [("status", Json.str "ignored"), ("event", event)]⟩, db)

/-- The route as seen by a client: `src/backend/src/main.py` registers a
global `@app.exception_handler(Exception)` turning any exception escaping the
route into a 500 response, so the process keeps serving. -/
def app_webhook (env : Option String) (now : Nat) (body : String) (db : List BDoc) :
    Resp × List BDoc :=
  match zoom_webhook env now body db with
  | (.ok r, db1) => (r, db1)
  | (.error e, db1) =>
    (⟨500, Json.obj [("error", Json.str "Internal server error"),
                     ("message", Json.str e)]⟩, db1)

end Backend

namespace FlaskVariant

/-!
Embedding of `src/backend_flask/zoom_webhook.py` (the second, unregistered
copy of the webhook).  Differences from `Backend`: the whole route body sits
in a try/except that answers 500 with the exception text; ids are stored as
raw JSON values (no `str()`); the join document has no `raw` field; the leave
update has NO `upsert=True`; `handle_url_validation` checks the secret; a
`verify_signature` helper exists but is never called by the route.
-/

/-- `verify_signature(secret, payload, timestamp, signature)`: recompute
`"v0=" + HMAC-SHA256(secret, "v0:"+timestamp+":"+payload).hexdigest()` and
compare with `hmac.compare_digest` (semantically string equality).  The raw
body bytes are `payload.decode("utf-8")` re-encoded unchanged, so the body is
embedded as the decoded string. -/
def verify_signature (secret : String) (payload : String)
    (timestamp : String) (signature : String) : Bool :=
  let message := "v0:" ++ timestamp ++ ":" ++ payload
  let hash_signature := hexDigest (hmacSha256 (strBytes secret) (strBytes message))
  let expected_signature := "v0=" ++ hash_signature
  signature == expected_signature

/-- A document of the `participants` collection as this variant writes it. -/
structure FDoc where
  meeting_id : Json
  user_id : Json
  name : Json
  email : Json
  join_time : Option Nat := none
  left_time : Option Nat := none
  status : String

/-- `handle_url_validation`: read `plainToken`, fetch the secret (default
`""`), raise `HTTPException(500)` when it is unset, else answer the token
pair. The raised exception is caught by the route's try/except. -/
def handle_url_validation (env : Option String) (data : Json) : Except String Json := do
  let payload ← pyIndex data "payload"
  let plain ← pyIndex payload "plainToken"
  let secret := env.getD ""
  if secret == "" then Except.error "500: ZOOM_WEBHOOK_SECRET not set"
  else do
    let t ← asStr plain
    return Json.obj [("plainToken", plain),
      ("encryptedToken", Json.str (base64Str (hmacSha256 (strBytes secret) (strBytes t))))]

/-- Field extraction of this variant's `handle_participant_joined` (ids kept
as raw JSON values). -/
def joined_fields (data : Json) : Except String (Json × Json × Json × Json) := do
  let payload ← pyIndex data "payload"
  let obj ← pyIndex payload "object"
  let participant ← dictGet obj "participant" (Json.obj [])
  let meeting_id ← dictGet obj "id" Json.null
  let uid1 ← dictGet participant "user_id" Json.null
  let uid2 ← dictGet participant "id" Json.null
  let name1 ← dictGet participant "user_name" Json.null
  let name2 ← dictGet participant "name" Json.null
  let email ← dictGet participant "email" Json.null
  return (meeting_id, pyOr uid1 uid2, pyOr name1 name2, email)

/-- `handle_participant_joined`: `insert_one` with `status="joined"`. -/
def handle_participant_joined (now : Nat) (data : Json) (db : List FDoc) :
    Except String Json × List FDoc :=
  match joined_fields data with
  | .error e => (.error e, db)
  | .ok (meeting_id, user_id, name, email) =>
    (.ok (Json.obj [("status", Json.str "success"), ("event", Json.str "joined")]),
     db ++ [{ meeting_id := meeting_id, user_id := user_id, name := name,
              email := email, join_time := some now, status := "joined" }])

/-- `update_one({meeting_id, user_id}, {$set: ...})` with no `upsert`: update
the first matching document; when none matches, write nothing. -/
def update_left (m u : Json) (now : Nat) : List FDoc → List FDoc
  | [] => []
  | d :: ds =>
    if Json.beq d.meeting_id m && Json.beq d.user_id u then
      { d with left_time := some now, status := "left" } :: ds
    else d :: update_left m u now ds

/-- Field extraction of this variant's `handle_participant_left`. -/
def left_fields (data : Json) : Except String (Json × Json) := do
  let payload ← pyIndex data "payload"
  let obj ← pyIndex payload "object"
  let participant ← dictGet obj "participant" (Json.obj [])
  let meeting_id ← dictGet obj "id" Json.null
  let uid1 ← dictGet participant "user_id" Json.null
  let uid2 ← dictGet participant "id" Json.null
  return (meeting_id, pyOr uid1 uid2)

/-- `handle_participant_left`: non-upsert update. -/
def handle_participant_left (now : Nat) (data : Json) (db : List FDoc) :
    Except String Json × List FDoc :=
  match left_fields data with
  | .error e => (.error e, db)
  | .ok (m, u) =>
    (.ok (Json.obj [("status", Json.str "success"), ("event", Json.str "left")]),
     update_left m u now db)

/-- The body of this variant's `zoom_webhook` try-block: parse, read `event`
with default `""`, dispatch. -/
def webhook_try (env : Option String) (now : Nat) (body : String) (db : List FDoc) :
    Except String Json × List FDoc :=
  match json_loads body with
  | .error e => (.error e, db)
  | .ok data =>
    match dictGet data "event" (Json.str "") with
    | .error e => (.error e, db)
    | .ok event =>
      if jsonEqStr event "endpoint.url_validation" then
        (handle_url_validation env data, db)
      else if jsonEqStr event "meeting.participant_joined" ||
              jsonEqStr event "participant.joined" then
        handle_participant_joined now data db
      else if jsonEqStr event "meeting.participant_left" ||
              jsonEqStr event "participant.left" then
        handle_participant_left now data db
      else (.ok (Json.obj [("status", Json.str "ignored"), ("event", event)]), db)

/-- The `POST` route handler: `except Exception as e` answers
`JSONResponse(status_code=500, content={"error": str(e)})`, so the route
always produces a response. -/
def zoom_webhook (env : Option String) (now : Nat) (body : String) (db : List FDoc) :
    Resp × List FDoc :=
  match webhook_try env now body db with
  | (.ok j, db1) => (⟨200, j⟩, db1)
  | (.error e, db1) => (⟨500, Json.obj [("error", Json.str e)]⟩, db1)

end FlaskVariant


/-! ## Concrete request fixtures used by closed theorems. -/

/-- A `meeting.participant_joined` request body. -/
def joinBody : String :=
  "\x7b\"event\":\"meeting.participant_joined\",\"payload\":\x7b\"object\":\x7b\"id\":\"m1\",\"participant\":\x7b\"user_id\":\"u1\",\"user_name\":\"Alice\",\"email\":\"e@x\"\x7d\x7d\x7d\x7d"

/-- A `meeting.participant_left` request body for the same pair. -/
def leaveBody : String :=
  "\x7b\"event\":\"meeting.participant_left\",\"payload\":\x7b\"object\":\x7b\"id\":\"m1\",\"participant\":\x7b\"user_id\":\"u1\"\x7d\x7d\x7d\x7d"

/-- An `endpoint.url_validation` request body with `plainToken` `"tok"`. -/
def valBody : String :=
  "\x7b\"event\":\"endpoint.url_validation\",\"payload\":\x7b\"plainToken\":\"tok\"\x7d\x7d"

/-- The participant object of `joinBody` as parsed JSON. -/
def participantJson : Json :=
  Json.obj [("user_id", Json.str "u1"), ("user_name", Json.str "Alice"),
            ("email", Json.str "e@x")]

/-- The parsed JSON of `joinBody`. -/
def joinData : Json :=
  Json.obj [("event", Json.str "meeting.participant_joined"),
            ("payload", Json.obj [("object",
              Json.obj [("id", Json.str "m1"), ("participant", participantJson)])])]

/-- The document `Backend.handle_participant_joined` inserts for `joinData`. -/
def joinDoc (now : Nat) : Backend.BDoc :=
  { zoom_meeting_id := "m1", user_id := "u1", name := some (Json.str "Alice"),
    email := some (Json.str "e@x"), join_time := some now, status := "joined",
    raw := some participantJson }

/-- Parsed JSON of a leave event for the pair `(m, u)`. -/
def leaveEventData (m u : String) : Json :=
  Json.obj [("event", Json.str "meeting.participant_left"),
            ("payload", Json.obj [("object",
              Json.obj [("id", Json.str m),
                        ("participant", Json.obj [("user_id", Json.str u)])])])]

/-! ## Small general lemmas. -/

@[simp] theorem exceptBind_ok {α β : Type} (a : α) (f : α → Except String β) :
    (Except.ok a >>= f) = f a := rfl

@[simp] theorem exceptBind_error {α β : Type} (e : String) (f : α → Except String β) :
    ((Except.error e : Except String α) >>= f) = Except.error e := rfl

theorem string_append_cancel_left (s t1 t2 : String) (h : s ++ t1 = s ++ t2) : t1 = t2 := by
  have hd : s.data ++ t1.data = s.data ++ t2.data := congrArg String.data h
  have h2 : t1.data = t2.data := List.append_cancel_left hd
  cases t1
  cases t2
  exact congrArg String.mk h2

/-! ## Known-answer tests pinning the crypto embedding to the functions the
source imports (`hashlib.sha256`, `hmac`, `base64.b64encode`). -/

theorem sha256_known_answer :
    hexDigest (sha256 (strBytes "abc")) =
      "ba7816bf8f01cfea414140de5dae2223b00361a396177a9cb410ff61f20015ad" := by decide

theorem hmacSha256_known_answer :
    hexDigest (hmacSha256 (strBytes "key")
        (strBytes "The quick brown fox jumps over the lazy dog")) =
      "f7bc83f430538424b13298e6aa6fb143ef4d59a14946175997479dbc2d1a3cd8" := by decide

theorem base64_known_answer :
    base64Str (strBytes "Many hands make light work.") =
      "TWFueSBoYW5kcyBtYWtlIGxpZ2h0IHdvcmsu" := by decide

/-! ## Claim theorems. -/

/-- C6: the Signature Verifier returns true iff the received signature equals
`"v0="` followed by the hex HMAC-SHA256 of `"v0:" + timestamp + ":" + rawBody`
under the secret; hence it accepts the signature it would itself compute, and
rejects any input whose expected signature (in particular, the expected
signature after a single-bit mutation of body, timestamp or secret whenever
that mutation changes the digest) differs from the received one. -/
theorem C6_verify_signature_characterization :
    (∀ secret payload timestamp signature,
      FlaskVariant.verify_signature secret payload timestamp signature = true ↔
        signature = "v0=" ++ hexDigest (hmacSha256 (strBytes secret)
          (strBytes ("v0:" ++ timestamp ++ ":" ++ payload)))) ∧
    (∀ secret payload timestamp,
      FlaskVariant.verify_signature secret payload timestamp
        ("v0=" ++ hexDigest (hmacSha256 (strBytes secret)
          (strBytes ("v0:" ++ timestamp ++ ":" ++ payload)))) = true) ∧
    (∀ secret payload timestamp secret2 payload2 timestamp2,
      hexDigest (hmacSha256 (strBytes secret2)
          (strBytes ("v0:" ++ timestamp2 ++ ":" ++ payload2))) ≠
        hexDigest (hmacSha256 (strBytes secret)
          (strBytes ("v0:" ++ timestamp ++ ":" ++ payload))) →
      FlaskVariant.verify_signature secret2 payload2 timestamp2
        ("v0=" ++ hexDigest (hmacSha256 (strBytes secret)
          (strBytes ("v0:" ++ timestamp ++ ":" ++ payload)))) = false) := by
  refine ⟨?_, ?_, ?_⟩
  · intro s p t sig
    simp [FlaskVariant.verify_signature]
  · intro s p t
    simp [FlaskVariant.verify_signature]
  · intro s p t s2 p2 t2 h
    simp only [FlaskVariant.verify_signature]
    apply beq_eq_false_iff_ne.mpr
    intro heq
    exact h (string_append_cancel_left _ _ _ heq).symm

/-- C6 witness: the verifier rejects the valid signature of body `"ab"` when
the body is mutated by a single bit to `"ac"` (secret `"k"`, timestamp
`"123"`). -/
theorem C6_verify_signature_characterization_witness :
    hexDigest (hmacSha256 (strBytes "k") (strBytes ("v0:" ++ "123" ++ ":" ++ "ac"))) ≠
      hexDigest (hmacSha256 (strBytes "k") (strBytes ("v0:" ++ "123" ++ ":" ++ "ab"))) ∧
    FlaskVariant.verify_signature "k" "ac" "123"
      ("v0=" ++ hexDigest (hmacSha256 (strBytes "k")
        (strBytes ("v0:" ++ "123" ++ ":" ++ "ab")))) = false :=
  ⟨by decide,
   C6_verify_signature_characterization.2.2 "k" "ab" "123" "k" "ac" "123" (by decide)⟩

/-- C9 counterexample: the secrets `"a"` and `"a\x00"` are distinct yet both
endpoints answer the `endpoint.url_validation` request identically under
either secret (HMAC zero-pads keys to the 64-byte block, so a secret and the
same secret with a trailing NUL byte produce the same encryptedToken). -/
theorem C9_distinct_secrets_same_token :
    ("a" : String) ≠ "a\x00" ∧
    FlaskVariant.zoom_webhook (some "a") 0 valBody [] =
      FlaskVariant.zoom_webhook (some "a\x00") 0 valBody [] ∧
    Backend.app_webhook (some "a") 0 valBody [] =
      Backend.app_webhook (some "a\x00") 0 valBody [] :=
  ⟨by decide, by rfl, by rfl⟩

/-- C9 (amended): the Challenge Responder is deterministic — the
encryptedToken is a function of `(secret, plainToken)` alone,
`base64(HMAC-SHA256(secret, plainToken))`, and both webhook variants compute
the same token; but distinct secrets do NOT always yield distinct tokens. -/
theorem C9_challenge_deterministic :
    ∀ (secret plain : String), secret ≠ "" →
    Backend.url_validation (some secret)
        (Json.obj [("payload", Json.obj [("plainToken", Json.str plain)])]) =
      .ok (Json.obj [("plainToken", Json.str plain),
        ("encryptedToken",
         Json.str (base64Str (hmacSha256 (strBytes secret) (strBytes plain))))]) ∧
    FlaskVariant.handle_url_validation (some secret)
        (Json.obj [("payload", Json.obj [("plainToken", Json.str plain)])]) =
      .ok (Json.obj [("plainToken", Json.str plain),
        ("encryptedToken",
         Json.str (base64Str (hmacSha256 (strBytes secret) (strBytes plain))))]) := by
  intro s p hs
  have hb : (s == "") = false := beq_eq_false_iff_ne.mpr hs
  constructor
  · rfl
  · simp [FlaskVariant.handle_url_validation, pyIndex, jsonLookup, asStr, hb]

/-- C9 witness: both variants produce the same fixed token for
`("s3cr3t", "abc123")`. -/
theorem C9_challenge_deterministic_witness :
    ("s3cr3t" : String) ≠ "" ∧
    (Backend.url_validation (some "s3cr3t")
        (Json.obj [("payload", Json.obj [("plainToken", Json.str "abc123")])]) =
      .ok (Json.obj [("plainToken", Json.str "abc123"),
        ("encryptedToken",
         Json.str (base64Str (hmacSha256 (strBytes "s3cr3t") (strBytes "abc123"))))]) ∧
    FlaskVariant.handle_url_validation (some "s3cr3t")
        (Json.obj [("payload", Json.obj [("plainToken", Json.str "abc123")])]) =
      .ok (Json.obj [("plainToken", Json.str "abc123"),
        ("encryptedToken",
         Json.str (base64Str (hmacSha256 (strBytes "s3cr3t") (strBytes "abc123"))))])) :=
  ⟨by decide, C9_challenge_deterministic "s3cr3t" "abc123" (by decide)⟩

/-- C5: with the secret absent from the environment, the registered backend
router still answers an `endpoint.url_validation` request with HTTP 200 and
an encryptedToken computed from the empty secret, while the flask-named
variant raises and answers 500 without a token — the claimed
configuration-error behaviour holds only in the unregistered variant. -/
theorem C5_missing_secret_token_still_issued :
    Backend.app_webhook none 0 valBody [] =
      (⟨200, Json.obj [("plainToken", Json.str "tok"),
        ("encryptedToken",
         Json.str (base64Str (hmacSha256 (strBytes "") (strBytes "tok"))))]⟩, []) ∧
    FlaskVariant.zoom_webhook none 0 valBody [] =
      (⟨500, Json.obj [("error", Json.str "500: ZOOM_WEBHOOK_SECRET not set")]⟩, []) :=
  ⟨by rfl, by rfl⟩

/-- C4 counterexample: a malformed body is answered with HTTP 500 by both
variants, not with the claimed 400-equivalent parse error. -/
theorem C4_malformed_json_gives_500_not_400 :
    (FlaskVariant.zoom_webhook none 0 "\x7b" []).1.status = 500 ∧
    (Backend.app_webhook none 0 "\x7b" []).1.status = 500 ∧
    (500 : Nat) ≠ 400 :=
  ⟨by rfl, by rfl, by decide⟩

/-- C4 (amended): for every body on which JSON parsing fails, the flask-named
variant catches the exception and answers 500 with the error text, and the
backend router lets the exception escape to the application-level handler,
which answers 500; in both variants the store is untouched and a response is
produced, so the process keeps serving. -/
theorem C4_parse_error_returns_500_and_survives :
    ∀ (env : Option String) (now : Nat) (body e : String)
      (dbB : List Backend.BDoc) (dbF : List FlaskVariant.FDoc),
    json_loads body = .error e →
    FlaskVariant.zoom_webhook env now body dbF =
      (⟨500, Json.obj [("error", Json.str e)]⟩, dbF) ∧
    Backend.app_webhook env now body dbB =
      (⟨500, Json.obj [("error", Json.str "Internal server error"),
                       ("message", Json.str e)]⟩, dbB) := by
  intro env now body e dbB dbF h
  constructor
  · simp [FlaskVariant.zoom_webhook, FlaskVariant.webhook_try, h]
  · simp [Backend.app_webhook, Backend.zoom_webhook, h]

/-- C4 witness: the concrete malformed body `"\x7b"`. -/
theorem C4_parse_error_returns_500_and_survives_witness :
    json_loads "\x7b" = .error "Expecting property name" ∧
    (FlaskVariant.zoom_webhook none 0 "\x7b" [] =
      (⟨500, Json.obj [("error", Json.str "Expecting property name")]⟩, []) ∧
    Backend.app_webhook none 0 "\x7b" [] =
      (⟨500, Json.obj [("error", Json.str "Internal server error"),
                       ("message", Json.str "Expecting property name")]⟩, [])) :=
  ⟨by rfl,
   C4_parse_error_returns_500_and_survives none 0 "\x7b" "Expecting property name" [] [] (by rfl)⟩

/-- C7: with the secret configured, an `endpoint.url_validation` request
carrying a string `plainToken` is answered by both variants with exactly
`{plainToken, encryptedToken}` where the token is the base64 of the raw
HMAC-SHA256 digest of the plainToken under the secret; the store is
untouched. -/
theorem C7_url_validation_token_response :
    ∀ (secret plain body : String) (data payload : Json) (now : Nat)
      (dbB : List Backend.BDoc) (dbF : List FlaskVariant.FDoc),
    secret ≠ "" →
    json_loads body = .ok data →
    dictGet data "event" (Json.str "") = .ok (Json.str "endpoint.url_validation") →
    pyIndex data "payload" = .ok payload →
    pyIndex payload "plainToken" = .ok (Json.str plain) →
    Backend.zoom_webhook (some secret) now body dbB =
      (.ok ⟨200, Json.obj [("plainToken", Json.str plain),
        ("encryptedToken",
         Json.str (base64Str (hmacSha256 (strBytes secret) (strBytes plain))))]⟩, dbB) ∧
    FlaskVariant.zoom_webhook (some secret) now body dbF =
      (⟨200, Json.obj [("plainToken", Json.str plain),
        ("encryptedToken",
         Json.str (base64Str (hmacSha256 (strBytes secret) (strBytes plain))))]⟩, dbF) := by
  intro s p body data payload now dbB dbF hs hparse hev hpay htok
  have hb : (s == "") = false := beq_eq_false_iff_ne.mpr hs
  constructor
  · simp [Backend.zoom_webhook, hparse, hev, jsonEqStr, Backend.url_validation,
          hpay, htok, asStr]
  · simp [FlaskVariant.zoom_webhook, FlaskVariant.webhook_try, hparse, hev, jsonEqStr,
          FlaskVariant.handle_url_validation, hpay, htok, asStr, hb]

/-- C7 witness: the concrete `valBody` with secret `"s3cr3t"`. -/
theorem C7_url_validation_token_response_witness :
    ("s3cr3t" : String) ≠ "" ∧
    json_loads valBody = .ok (Json.obj [("event", Json.str "endpoint.url_validation"),
      ("payload", Json.obj [("plainToken", Json.str "tok")])]) ∧
    Backend.zoom_webhook (some "s3cr3t") 0 valBody [] =
      (.ok ⟨200, Json.obj [("plainToken", Json.str "tok"),
        ("encryptedToken",
         Json.str (base64Str (hmacSha256 (strBytes "s3cr3t") (strBytes "tok"))))]⟩, []) ∧
    FlaskVariant.zoom_webhook (some "s3cr3t") 0 valBody [] =
      (⟨200, Json.obj [("plainToken", Json.str "tok"),
        ("encryptedToken",
         Json.str (base64Str (hmacSha256 (strBytes "s3cr3t") (strBytes "tok"))))]⟩, []) := by
  have h := C7_url_validation_token_response "s3cr3t" "tok" valBody
    (Json.obj [("event", Json.str "endpoint.url_validation"),
      ("payload", Json.obj [("plainToken", Json.str "tok")])])
    (Json.obj [("plainToken", Json.str "tok")]) 0 [] []
    (by decide) (by rfl) (by rfl) (by rfl) (by rfl)
  exact ⟨by decide, by rfl, h.1, h.2⟩

/-- C8: any event tag other than the validation, join and leave tags is
answered HTTP 200 with `{status: "ignored", event: <tag>}` by both variants,
with the store untouched and no error. -/
theorem C8_unknown_event_ignored_200 :
    ∀ (body e : String) (data : Json) (env : Option String) (now : Nat)
      (dbB : List Backend.BDoc) (dbF : List FlaskVariant.FDoc),
    json_loads body = .ok data →
    dictGet data "event" (Json.str "") = .ok (Json.str e) →
    e ≠ "endpoint.url_validation" →
    e ≠ "meeting.participant_joined" → e ≠ "participant.joined" →
    e ≠ "meeting.participant_left" → e ≠ "participant.left" →
    Backend.zoom_webhook env now body dbB =
      (.ok ⟨200, Json.obj [("status", Json.str "ignored"), ("event", Json.str e)]⟩, dbB) ∧
    FlaskVariant.zoom_webhook env now body dbF =
      (⟨200, Json.obj [("status", Json.str "ignored"), ("event", Json.str e)]⟩, dbF) := by
  intro body e data env now dbB dbF hparse hev h1 h2 h3 h4 h5
  have b1 := beq_eq_false_iff_ne.mpr h1
  have b2 := beq_eq_false_iff_ne.mpr h2
  have b3 := beq_eq_false_iff_ne.mpr h3
  have b4 := beq_eq_false_iff_ne.mpr h4
  have b5 := beq_eq_false_iff_ne.mpr h5
  constructor
  · simp [Backend.zoom_webhook, hparse, hev, jsonEqStr, b1, b2, b3, b4, b5]
  · simp [FlaskVariant.zoom_webhook, FlaskVariant.webhook_try, hparse, hev, jsonEqStr,
          b1, b2, b3, b4, b5]

/-- C8 witness: the concrete unknown event `some.future.event`. -/
theorem C8_unknown_event_ignored_200_witness :
    json_loads "\x7b\"event\":\"some.future.event\"\x7d" =
      .ok (Json.obj [("event", Json.str "some.future.event")]) ∧
    Backend.zoom_webhook none 0 "\x7b\"event\":\"some.future.event\"\x7d" [] =
      (.ok ⟨200, Json.obj [("status", Json.str "ignored"),
        ("event", Json.str "some.future.event")]⟩, []) ∧
    FlaskVariant.zoom_webhook none 0 "\x7b\"event\":\"some.future.event\"\x7d" [] =
      (⟨200, Json.obj [("status", Json.str "ignored"),
        ("event", Json.str "some.future.event")]⟩, []) := by
  have h := C8_unknown_event_ignored_200 "\x7b\"event\":\"some.future.event\"\x7d"
    "some.future.event" (Json.obj [("event", Json.str "some.future.event")]) none 0 [] []
    (by rfl) (by rfl) (by decide) (by decide) (by decide) (by decide) (by decide)
  exact ⟨by rfl, h.1, h.2⟩

/-- C10: a join or leave event whose body lacks `payload`, or whose `payload`
object lacks `object`, makes the handlers raise a `KeyError` before any
store write: the store is unchanged, the backend route propagates an
exception (so the response is the application handler's 500, not a success
acknowledgment), and the flask-named variant answers 500. -/
theorem C10_missing_payload_no_write_no_success :
    ∀ (body e : String) (data : Json) (env : Option String) (now : Nat)
      (dbB : List Backend.BDoc) (dbF : List FlaskVariant.FDoc),
    json_loads body = .ok data →
    dictGet data "event" (Json.str "") = .ok (Json.str e) →
    (e = "meeting.participant_joined" ∨ e = "participant.joined" ∨
     e = "meeting.participant_left" ∨ e = "participant.left") →
    (pyIndex data "payload" = .error "KeyError: payload" ∨
     ∃ pp, pyIndex data "payload" = .ok pp ∧ pyIndex pp "object" = .error "KeyError: object") →
    ((Backend.zoom_webhook env now body dbB).2 = dbB ∧
     ∃ msg, (Backend.zoom_webhook env now body dbB).1 = Except.error msg) ∧
    ((FlaskVariant.zoom_webhook env now body dbF).2 = dbF ∧
     (FlaskVariant.zoom_webhook env now body dbF).1.status = 500) := by
  intro body e data env now dbB dbF hparse hev hevents hmiss
  obtain ⟨msg, hjB, hlB, hjF, hlF⟩ :
      ∃ msg, Backend.joined_fields data = .error msg ∧
             Backend.left_fields data = .error msg ∧
             FlaskVariant.joined_fields data = .error msg ∧
             FlaskVariant.left_fields data = .error msg := by
    rcases hmiss with h | ⟨pp, hp, ho⟩
    · exact ⟨"KeyError: payload",
        by simp [Backend.joined_fields, h],
        by simp [Backend.left_fields, h],
        by simp [FlaskVariant.joined_fields, h],
        by simp [FlaskVariant.left_fields, h]⟩
    · exact ⟨"KeyError: object",
        by simp [Backend.joined_fields, hp, ho],
        by simp [Backend.left_fields, hp, ho],
        by simp [FlaskVariant.joined_fields, hp, ho],
        by simp [FlaskVariant.left_fields, hp, ho]⟩
  have hBout : Backend.zoom_webhook env now body dbB = (.error msg, dbB) := by
    rcases hevents with rfl | rfl | rfl | rfl <;>
      simp [Backend.zoom_webhook, hparse, hev, jsonEqStr,
            Backend.handle_participant_joined, Backend.handle_participant_left, hjB, hlB]
  have hFout : FlaskVariant.zoom_webhook env now body dbF =
      (⟨500, Json.obj [("error", Json.str msg)]⟩, dbF) := by
    rcases hevents with rfl | rfl | rfl | rfl <;>
      simp [FlaskVariant.zoom_webhook, FlaskVariant.webhook_try, hparse, hev, jsonEqStr,
            FlaskVariant.handle_participant_joined, FlaskVariant.handle_participant_left,
            hjF, hlF]
  exact ⟨⟨by rw [hBout], ⟨msg, by rw [hBout]⟩⟩, by rw [hFout], by rw [hFout]⟩

/-- C10 witness: a `participant.left` body with no `payload` member. -/
theorem C10_missing_payload_no_write_no_success_witness :
    json_loads "\x7b\"event\":\"participant.left\"\x7d" =
      .ok (Json.obj [("event", Json.str "participant.left")]) ∧
    ((Backend.zoom_webhook none 3 "\x7b\"event\":\"participant.left\"\x7d" []).2 = [] ∧
     ∃ msg, (Backend.zoom_webhook none 3 "\x7b\"event\":\"participant.left\"\x7d" []).1 =
       Except.error msg) ∧
    ((FlaskVariant.zoom_webhook none 3 "\x7b\"event\":\"participant.left\"\x7d" []).2 = [] ∧
     (FlaskVariant.zoom_webhook none 3 "\x7b\"event\":\"participant.left\"\x7d" []).1.status = 500) := by
  have h := C10_missing_payload_no_write_no_success "\x7b\"event\":\"participant.left\"\x7d"
    "participant.left" (Json.obj [("event", Json.str "participant.left")]) none 3 [] []
    (by rfl) (by rfl) (Or.inr (Or.inr (Or.inr rfl))) (Or.inl (by rfl))
  exact ⟨by rfl, h.1, h.2⟩

/-- C1: neither webhook implementation consults any signature before
dispatching — the routes read no timestamp or signature header (their
embeddings have no such inputs, because the source never reads them) and
`verify_signature` is never called: a join event with no signature data at
all is dispatched, stored, and acknowledged with success by both variants. -/
theorem C1_event_processed_without_signature_check :
    Backend.app_webhook (some "secret") 5 joinBody [] =
      (⟨200, Backend.successJoined⟩, [joinDoc 5]) ∧
    FlaskVariant.zoom_webhook (some "secret") 5 joinBody [] =
      (⟨200, Json.obj [("status", Json.str "success"), ("event", Json.str "joined")]⟩,
       [{ meeting_id := Json.str "m1", user_id := Json.str "u1",
          name := Json.str "Alice", email := Json.str "e@x",
          join_time := some 5, status := "joined" }]) :=
  ⟨by rfl, by rfl⟩

/-- C2 counterexample: delivering the same join event twice leaves TWO
records for the pair in both variants, not the claimed exactly one. -/
theorem C2_duplicate_join_yields_two_records :
    ((Backend.app_webhook (some "s") 6 joinBody
        (Backend.app_webhook (some "s") 5 joinBody []).2).2).length = 2 ∧
    ((FlaskVariant.zoom_webhook (some "s") 6 joinBody
        (FlaskVariant.zoom_webhook (some "s") 5 joinBody []).2).2).length = 2 ∧
    (2 : Nat) ≠ 1 :=
  ⟨by rfl, by rfl, by decide⟩

theorem backend_join_appends (now : Nat) (data : Json) (db db1 : List Backend.BDoc)
    (j : Json) (h : Backend.handle_participant_joined now data db = (.ok j, db1)) :
    ∃ d, db1 = db ++ [d] := by
  rcases hf : Backend.joined_fields data with e | ⟨m, u, n, em, pt⟩
  · simp [Backend.handle_participant_joined, hf] at h
  · simp [Backend.handle_participant_joined, hf] at h
    exact ⟨_, h.2.symm⟩

/-- C2 (amended): `recordJoin` always inserts a fresh record
(`insert_one`); it never overwrites, so any two successful joins — in
particular two duplicate joins for the same (meetingId, userId) — grow the
store by exactly two records rather than leaving one. -/
theorem C2_join_always_inserts :
    ∀ (now1 now2 : Nat) (d1 d2 : Json) (db db1 db2 : List Backend.BDoc) (j1 j2 : Json),
    Backend.handle_participant_joined now1 d1 db = (.ok j1, db1) →
    Backend.handle_participant_joined now2 d2 db1 = (.ok j2, db2) →
    db2.length = db.length + 2 := by
  intro now1 now2 d1 d2 db db1 db2 j1 j2 h1 h2
  obtain ⟨a, ha⟩ := backend_join_appends now1 d1 db db1 j1 h1
  obtain ⟨b, hb⟩ := backend_join_appends now2 d2 db1 db2 j2 h2
  subst ha
  subst hb
  simp

/-- C2 witness: the duplicate join `joinData` delivered twice from an empty
store. -/
theorem C2_join_always_inserts_witness :
    Backend.handle_participant_joined 5 joinData [] =
      (.ok Backend.successJoined, [joinDoc 5]) ∧
    Backend.handle_participant_joined 6 joinData [joinDoc 5] =
      (.ok Backend.successJoined, [joinDoc 5, joinDoc 6]) ∧
    ([joinDoc 5, joinDoc 6] : List Backend.BDoc).length =
      ([] : List Backend.BDoc).length + 2 :=
  ⟨by rfl, by rfl,
   C2_join_always_inserts 5 6 joinData joinData [] [joinDoc 5] [joinDoc 5, joinDoc 6]
     Backend.successJoined Backend.successJoined (by rfl) (by rfl)⟩

/-- C3 counterexample: in the flask-named variant, a leave event for a pair
with no existing record is acknowledged with success but creates NO record
(the update has no upsert), leaving zero records where the claim requires
exactly one. -/
theorem C3_flask_leave_without_join_writes_nothing :
    FlaskVariant.zoom_webhook (some "s") 7 leaveBody [] =
      (⟨200, Json.obj [("status", Json.str "success"), ("event", Json.str "left")]⟩, []) ∧
    ((FlaskVariant.zoom_webhook (some "s") 7 leaveBody []).2).length = 0 ∧
    (0 : Nat) ≠ 1 :=
  ⟨by rfl, by rfl, by decide⟩

theorem bdoc_filter_false {d : Backend.BDoc} {m u : String}
    (h : ¬(d.zoom_meeting_id = m ∧ d.user_id = u)) :
    (d.zoom_meeting_id == m && d.user_id == u) = false := by
  by_cases h2 : d.zoom_meeting_id = m
  · have h1 : (d.zoom_meeting_id == m) = true := by simp [h2]
    simp only [h1, Bool.true_and]
    exact beq_eq_false_iff_ne.mpr (fun hu => h ⟨h2, hu⟩)
  · have h1 : (d.zoom_meeting_id == m) = false := beq_eq_false_iff_ne.mpr h2
    simp [h1]

theorem backend_update_left_no_match (m u : String) (now : Nat) (db : List Backend.BDoc)
    (h : ∀ d ∈ db, ¬(d.zoom_meeting_id = m ∧ d.user_id = u)) :
    Backend.update_left m u now db =
      db ++ [{ zoom_meeting_id := m, user_id := u, left_time := some now,
               status := "left" }] := by
  induction db with
  | nil => rfl
  | cons d ds ih =>
    have hcond := bdoc_filter_false (h d (List.mem_cons_self d ds))
    simp [Backend.update_left, hcond,
          ih (fun d' hd' => h d' (List.mem_cons_of_mem d hd'))]

theorem backend_update_left_first_match (m u : String) (now : Nat)
    (pre post : List Backend.BDoc) (d : Backend.BDoc)
    (hpre : ∀ d' ∈ pre, ¬(d'.zoom_meeting_id = m ∧ d'.user_id = u))
    (hm : d.zoom_meeting_id = m) (hu : d.user_id = u) :
    Backend.update_left m u now (pre ++ d :: post) =
      pre ++ { d with left_time := some now, status := "left" } :: post := by
  induction pre with
  | nil =>
    have hcond : (d.zoom_meeting_id == m && d.user_id == u) = true := by simp [hm, hu]
    simp [Backend.update_left, hcond]
  | cons p ps ih =>
    have hcond := bdoc_filter_false (hpre p (List.mem_cons_self p ps))
    simp [Backend.update_left, hcond,
          ih (fun d' hd' => hpre d' (List.mem_cons_of_mem p hd'))]

/-- C3 (amended, holds for the registered backend router): `recordLeave` for
a pair with no matching record creates exactly one record with
`status="left"`, `left_time` set and `join_time` absent; with a matching
record present it updates the first match in place, setting `status` and
`left_time`. (The flask-named variant lacks the upsert and creates nothing,
see the counterexample.) -/
theorem C3_backend_leave_upserts :
    ∀ (now : Nat) (m u : String) (db : List Backend.BDoc), u ≠ "" →
    ((∀ d ∈ db, ¬(d.zoom_meeting_id = m ∧ d.user_id = u)) →
      Backend.handle_participant_left now (leaveEventData m u) db =
        (.ok Backend.successLeft,
         db ++ [{ zoom_meeting_id := m, user_id := u, left_time := some now,
                  status := "left" }])) ∧
    (∀ (pre post : List Backend.BDoc) (d : Backend.BDoc), db = pre ++ d :: post →
      (∀ d' ∈ pre, ¬(d'.zoom_meeting_id = m ∧ d'.user_id = u)) →
      d.zoom_meeting_id = m → d.user_id = u →
      Backend.handle_participant_left now (leaveEventData m u) db =
        (.ok Backend.successLeft,
         pre ++ { d with left_time := some now, status := "left" } :: post)) := by
  intro now m u db hu
  have hb : (u == "") = false := beq_eq_false_iff_ne.mpr hu
  have hfields : Backend.left_fields (leaveEventData m u) = .ok (m, u) := by
    simp [Backend.left_fields, leaveEventData, pyIndex, jsonLookup, dictGet,
          pyOr, pyTruthy, pyStr, bne, hb]
  constructor
  · intro hnone
    simp [Backend.handle_participant_left, hfields,
          backend_update_left_no_match m u now db hnone]
  · intro pre post d hdb hpre hm hum
    subst hdb
    simp [Backend.handle_participant_left, hfields,
          backend_update_left_first_match m u now pre post d hpre hm hum]

/-- C3 witness: a leave for `("m1", "u1")` updates the record the join for
that pair created, in place. -/
theorem C3_backend_leave_upserts_witness :
    ("u1" : String) ≠ "" ∧
    Backend.handle_participant_left 7 (leaveEventData "m1" "u1") [joinDoc 5] =
      (.ok Backend.successLeft,
       [{ joinDoc 5 with left_time := some 7, status := "left" }]) := by
  refine ⟨by decide, ?_⟩
  exact (C3_backend_leave_upserts 7 "m1" "u1" [joinDoc 5] (by decide)).2
    [] [] (joinDoc 5) rfl (by simp) rfl rfl
